import Mathlib

/-!
Shallow embedding of the task-supervision core of the repository:
`_common/spawner.py` (ClaudeSpawner, BackgroundTask, error classification,
escalation), `_common/retry_handler.py` (RetryHandler) and
`_common/health_checker.py` (HealthChecker).  Machine reals (Python floats)
are modelled as rationals; wall-clock observations (child runtime, exit code,
captured output, or a raised exception) are passed in as an explicit
environment value, and mutation of `self` is explicit state passing.
-/

namespace Orchestrate

/-- TaskStatus enum from spawner.py. -/
inductive TaskStatus
  | PENDING
  | RUNNING
  | COMPLETED
  | FAILED
  | TIMEOUT
  | CRITICAL_ERROR
deriving DecidableEq, Repr

/-- ErrorSeverity enum from spawner.py. -/
inductive ErrorSeverity
  | RECOVERABLE
  | CRITICAL
  | FATAL
deriving DecidableEq, Repr

/-- EscalationAction enum from spawner.py.  In the source this is a
`str`-valued enum; `value` below gives each member's string value. -/
inductive EscalationAction
  | CONTINUE
  | STOP_PIPELINE
  | RETRY
  | ASK_HUMAN
deriving DecidableEq, Repr

/-- String value of each EscalationAction member (it is a str Enum). -/
def EscalationAction.value : EscalationAction → String
  | .CONTINUE => "continue"
  | .STOP_PIPELINE => "stop_pipeline"
  | .RETRY => "retry"
  | .ASK_HUMAN => "ask_human"

/-- CriticalError dataclass from spawner.py. -/
structure CriticalError where
  message : String
  severity : ErrorSeverity
  task_id : String
  stage_name : String
  error_details : Option String := none
  suggested_action : Option String := none
  timestamp : ℚ := 0
deriving DecidableEq, Repr

/-- TaskResult dataclass from spawner.py. -/
structure TaskResult where
  success : Bool
  output : String
  error : Option String := none
  exit_code : Int := 0
  duration_seconds : ℚ := 0
  status : TaskStatus := .COMPLETED
  error_severity : Option ErrorSeverity := none
  critical_error : Option CriticalError := none
deriving DecidableEq, Repr

/-- Python substring test `pat in hay` on lists of characters: some suffix of
the haystack starts with the pattern. -/
def listContains (hay pat : List Char) : Bool :=
  match hay with
  | [] => pat.isEmpty
  | c :: rest => pat.isPrefixOf (c :: rest) || listContains rest pat

/-- Characters of a string, lowercased (Python str.lower on ASCII patterns). -/
def pyLower (s : String) : List Char :=
  s.data.map Char.toLower

/-- Case-insensitive containment used by the classifier:
`pattern.lower() in error_output.lower()`. -/
def containsLower (error_output pat : String) : Bool :=
  listContains (pyLower error_output) (pyLower pat)

/-- Critical substring patterns from _classify_error_severity. -/
def critical_patterns : List String :=
  ["API rate limit", "Authentication failed", "Permission denied",
   "Out of memory", "Disk full", "Network unreachable",
   "Internal server error", "CRITICAL"]

/-- Recoverable (transient) substring patterns from _classify_error_severity. -/
def recoverable_patterns : List String :=
  ["Connection timeout", "Temporary failure",
   "Resource temporarily unavailable", "Try again"]

/-- True when the error output contains (case-insensitively) one of the
patterns. -/
def containsAnyOf (error_output : String) (pats : List String) : Bool :=
  pats.any (fun p => containsLower error_output p)

/-- ClaudeSpawner._classify_error_severity, translated clause by clause. -/
def _classify_error_severity (exit_code : Int) (error_output : String)
    (status : TaskStatus) : ErrorSeverity :=
  if status = TaskStatus.TIMEOUT then ErrorSeverity.FATAL
  else if containsAnyOf error_output critical_patterns then ErrorSeverity.CRITICAL
  else if containsAnyOf error_output recoverable_patterns then ErrorSeverity.RECOVERABLE
  else if exit_code = 0 then ErrorSeverity.RECOVERABLE
  else if exit_code < 0 then ErrorSeverity.CRITICAL
  else if 100 ≤ exit_code then ErrorSeverity.CRITICAL
  else ErrorSeverity.RECOVERABLE

/-- Reference classifier written from the specification text: FATAL on
TIMEOUT status; else CRITICAL on a critical pattern; else RECOVERABLE on a
transient pattern; else by exit code (0 recoverable, negative critical,
at least 100 critical, otherwise recoverable). -/
def classify_reference (exit_code : Int) (error_output : String)
    (status : TaskStatus) : ErrorSeverity :=
  if status = TaskStatus.TIMEOUT then ErrorSeverity.FATAL
  else if containsAnyOf error_output critical_patterns then ErrorSeverity.CRITICAL
  else if containsAnyOf error_output recoverable_patterns then ErrorSeverity.RECOVERABLE
  else if exit_code = 0 then ErrorSeverity.RECOVERABLE
  else if exit_code < 0 then ErrorSeverity.CRITICAL
  else if exit_code ≥ 100 then ErrorSeverity.CRITICAL
  else ErrorSeverity.RECOVERABLE

/-- ClaudeSpawner._execute_escalation_action.  The action argument is a
str-enum value compared against the four member values in source order; the
final branch handles any unrecognized value.  The result ignores
`task_result` and `task_id` (they are only logged in the source). -/
def _execute_escalation_action (action : String) (_task_result : TaskResult)
    (_task_id : String) : Bool :=
  if action = EscalationAction.CONTINUE.value then true
  else if action = EscalationAction.STOP_PIPELINE.value then false
  else if action = EscalationAction.RETRY.value then true
  else if action = EscalationAction.ASK_HUMAN.value then false
  else false

/-- Mutable spawner state touched by the error-handling paths: the
critical-error history plus the escalation configuration.  The
`on_critical_error` callback may raise (modelled as `Except.error`). -/
structure SpawnerState where
  critical_errors : List CriticalError := []
  default_escalation : EscalationAction := .STOP_PIPELINE
  on_critical_error : Option (CriticalError → Except String EscalationAction) := none

/-- ClaudeSpawner.get_critical_errors (returns a copy of the history). -/
def get_critical_errors (self : SpawnerState) : List CriticalError :=
  self.critical_errors

/-- ClaudeSpawner._handle_critical_error: append to history, then consult the
callback if configured, falling back to the default escalation when the
callback is absent or raises. -/
def _handle_critical_error (self : SpawnerState) (error : CriticalError) :
    SpawnerState × EscalationAction :=
  let self' : SpawnerState := { self with critical_errors := self.critical_errors ++ [error] }
  match self.on_critical_error with
  | some cb =>
    match cb error with
    | Except.ok action => (self', action)
    | Except.error _ => (self', self.default_escalation)
  | none => (self', self.default_escalation)

/-- Observable behaviour of the child process when it is launched and left to
run: its total runtime, exit code and captured output. -/
structure ProcessRun where
  runtime_seconds : ℚ
  exit_code : Int
  stdout_content : String
  stderr_content : String
deriving DecidableEq, Repr

/-- Environment outcome of one spawn: either the child process runs (and the
monitor observes `ProcessRun`), or an exception is raised during spawn or
monitoring (carried as its message string). -/
inductive RunOutcome
  | completes (run : ProcessRun)
  | raises (e : String)
deriving DecidableEq, Repr

/-- Outcome of the `try` suite of spawn_blocking: a returned TaskResult, or a
raised exception (which the enclosing `except Exception` clause of the same
`try` statement then catches), together with the spawner state reached. -/
inductive TryOutcome
  | ret (st : SpawnerState) (result : TaskResult)
  | exc (st : SpawnerState) (msg : String)

/-- The `try` suite of ClaudeSpawner.spawn_blocking.  On timeout a FATAL
CriticalError is handled (appended + escalation decision) and, when the
decision is not to continue, a pipeline-stop RuntimeError is raised; on a
non-zero exit with CRITICAL/FATAL severity likewise; otherwise the final
TaskResult (default status COMPLETED) is returned.  An environment exception
surfaces as `TryOutcome.exc` with the state unchanged.  Log formatting and
temp-file bookkeeping are elided; message strings are kept to their fixed
prefixes (the interpolated numbers are elided). -/
def spawn_blocking_try (self : SpawnerState) (outcome : RunOutcome)
    (actual_timeout : ℚ) (task_id task_label : String) : TryOutcome :=
  match outcome with
  | .raises e => .exc self e
  | .completes run =>
    if run.runtime_seconds > actual_timeout then
      let critical_error : CriticalError :=
        { message := "Task timed out"
          severity := .FATAL
          task_id := task_id
          stage_name := task_label
          error_details := some run.stderr_content
          suggested_action := some "Increase timeout or optimize task complexity" }
      let handled := _handle_critical_error self critical_error
      let result : TaskResult :=
        { success := false
          output := run.stdout_content
          error := some "Task timed out"
          exit_code := -1
          duration_seconds := run.runtime_seconds
          status := .TIMEOUT
          error_severity := some .FATAL
          critical_error := some critical_error }
      if _execute_escalation_action handled.2.value result task_id then
        .ret handled.1 result
      else
        .exc handled.1 ("Pipeline stopped due to timeout in " ++ task_label)
    else
      let exit_code := run.exit_code
      let error_severity : Option ErrorSeverity :=
        if exit_code ≠ 0 then
          some (_classify_error_severity exit_code run.stderr_content .FAILED)
        else none
      match error_severity with
      | some sev =>
        if sev = .CRITICAL ∨ sev = .FATAL then
          let critical_error : CriticalError :=
            { message := "Task failed with nonzero exit code"
              severity := sev
              task_id := task_id
              stage_name := task_label
              error_details := if run.stderr_content = "" then none else some run.stderr_content
              suggested_action := some "Review error logs and retry or fix the issue" }
          let handled := _handle_critical_error self critical_error
          let result : TaskResult :=
            { success := false
              output := run.stdout_content
              error := if run.stderr_content = "" then none else some run.stderr_content
              exit_code := exit_code
              duration_seconds := run.runtime_seconds
              status := if sev = .CRITICAL then .CRITICAL_ERROR else .FAILED
              error_severity := some sev
              critical_error := some critical_error }
          if _execute_escalation_action handled.2.value result task_id then
            .ret handled.1 result
          else
            .exc handled.1 ("Pipeline stopped due to critical error in " ++ task_label)
        else
          .ret self
            { success := false
              output := run.stdout_content
              error := if run.stderr_content = "" then none else some run.stderr_content
              exit_code := exit_code
              duration_seconds := run.runtime_seconds
              status := .COMPLETED
              error_severity := some sev }
      | none =>
        .ret self
          { success := true
            output := run.stdout_content
            error := if run.stderr_content = "" then none else some run.stderr_content
            exit_code := exit_code
            duration_seconds := run.runtime_seconds
            status := .COMPLETED }

/-- The `except Exception` suite of spawn_blocking: unconditionally builds a
CRITICAL CriticalError, handles it (append + escalation) and either returns a
success=false TaskResult with status CRITICAL_ERROR or raises the
pipeline-stop RuntimeError (modelled as `Except.error`, carrying the state so
the history stays observable).  The recomputed duration is elided (0). -/
def spawn_blocking_handler (self : SpawnerState) (e : String)
    (task_id task_label : String) :
    Except (SpawnerState × String) (SpawnerState × TaskResult) :=
  let critical_error : CriticalError :=
    { message := "Exception during task execution"
      severity := .CRITICAL
      task_id := task_id
      stage_name := task_label
      error_details := some e
      suggested_action := some "Review logs and fix the underlying issue" }
  let handled := _handle_critical_error self critical_error
  let result : TaskResult :=
    { success := false
      output := ""
      error := some e
      exit_code := -1
      duration_seconds := 0
      status := .CRITICAL_ERROR
      error_severity := some .CRITICAL
      critical_error := some critical_error }
  if _execute_escalation_action handled.2.value result task_id then
    Except.ok (handled.1, result)
  else
    Except.error (handled.1, "Pipeline stopped due to exception in " ++ task_label)

/-- ClaudeSpawner.spawn_blocking: the `try` suite, with every exception it
raises (environment faults, and also the pipeline-stop RuntimeErrors raised
inside the `try` block itself) caught by the `except Exception` clause. -/
def spawn_blocking (self : SpawnerState) (outcome : RunOutcome)
    (actual_timeout : ℚ) (task_id task_label : String) :
    Except (SpawnerState × String) (SpawnerState × TaskResult) :=
  match spawn_blocking_try self outcome actual_timeout task_id task_label with
  | .ret st r => Except.ok (st, r)
  | .exc st e => spawn_blocking_handler st e task_id task_label

/-- BackgroundTask dataclass from spawner.py (process handle, thread handle
and temp-file paths elided). -/
structure BackgroundTask where
  task_id : String
  stage_name : String
  status : TaskStatus := .PENDING
  start_time : ℚ := 0
  timeout : ℚ := 600
  _result : Option TaskResult := none
deriving DecidableEq, Repr

/-- BackgroundTask.is_running. -/
def BackgroundTask.is_running (t : BackgroundTask) : Bool :=
  t.status = TaskStatus.RUNNING

/-- BackgroundTask.is_done: membership of status in
(COMPLETED, FAILED, TIMEOUT). -/
def BackgroundTask.is_done (t : BackgroundTask) : Bool :=
  t.status = TaskStatus.COMPLETED || t.status = TaskStatus.FAILED ||
    t.status = TaskStatus.TIMEOUT

/-- Tail of BackgroundTask.get_result after the optional wait: the stored
result if set, else the synthetic still-running TaskResult. -/
def BackgroundTask.current_result (t : BackgroundTask) (elapsed : ℚ) : TaskResult :=
  match t._result with
  | some r => r
  | none =>
    { success := false
      output := ""
      error := some "Task still running"
      exit_code := -1
      duration_seconds := elapsed
      status := t.status }

/-- BackgroundTask.get_result.  With block=true the source loops
`while not is_done: sleep`; on a task value whose status does not change,
that loop exits immediately when `is_done` holds and never exits otherwise,
so the non-returning wait is modelled as `none`. -/
def BackgroundTask.get_result (t : BackgroundTask) (block : Bool)
    (elapsed : ℚ) : Option TaskResult :=
  if block ∧ ¬ t.is_done then none
  else some (t.current_result elapsed)

/-- ClaudeSpawner._execute_task (the background worker body).  Its timeout
branch only sets status TIMEOUT and stores a TaskResult; its `except` branch
only sets status FAILED and stores a TaskResult; neither touches the
critical-error history or the escalation policy, so the spawner state passes
through unchanged.  The completion callback (whose own exceptions are caught
and logged) is elided. -/
def _execute_task (self : SpawnerState) (task : BackgroundTask)
    (outcome : RunOutcome) : SpawnerState × BackgroundTask :=
  let task := { task with status := TaskStatus.RUNNING }
  match outcome with
  | .raises e =>
    let result : TaskResult :=
      { success := false
        output := ""
        error := some e
        exit_code := -1
        duration_seconds := 0
        status := .FAILED }
    (self, { task with status := .FAILED, _result := some result })
  | .completes run =>
    if run.runtime_seconds > task.timeout then
      let result : TaskResult :=
        { success := false
          output := run.stdout_content
          error := some ("Task timed out. stderr: " ++ run.stderr_content)
          exit_code := -1
          duration_seconds := run.runtime_seconds
          status := .TIMEOUT }
      (self, { task with status := .TIMEOUT, _result := some result })
    else
      let success := run.exit_code = 0
      let status := if success then TaskStatus.COMPLETED else TaskStatus.FAILED
      let result : TaskResult :=
        { success := success
          output := run.stdout_content
          error := if run.stderr_content = "" then none else some run.stderr_content
          exit_code := run.exit_code
          duration_seconds := run.runtime_seconds
          status := status }
      (self, { task with status := status, _result := some result })

/-- HealthStatus enum from health_checker.py. -/
inductive HealthStatus
  | HEALTHY
  | TIMEOUT
  | HUNG
  | HIGH_MEMORY
  | HIGH_CPU
  | NOT_FOUND
  | TERMINATED
deriving DecidableEq, Repr

/-- HealthReport dataclass from health_checker.py. -/
structure HealthReport where
  pid : Int
  status : HealthStatus
  cpu_percent : ℚ
  memory_mb : ℚ
  runtime_seconds : ℚ
  last_activity_seconds : ℚ
  message : String
deriving DecidableEq, Repr

/-- HealthChecker configuration fields from health_checker.py. -/
structure HealthChecker where
  activity_timeout : ℚ := 1200
  use_cpu_detection : Bool := true
  memory_limit_mb : ℚ := 4096
  cpu_threshold : ℚ := 1
deriving DecidableEq, Repr

/-- What psutil reports for an existing process: whether it is still running,
its sampled CPU percentage and resident memory in MB. -/
structure ProcessObservation where
  is_running : Bool
  cpu_percent : ℚ
  memory_mb : ℚ
deriving DecidableEq, Repr

/-- HealthChecker.check_health.  `obs` is `none` when psutil raises
NoSuchProcess (or any other lookup failure), otherwise the sampled metrics;
`runtime_seconds` and `last_activity_seconds` are the elapsed-time values the
source computes from its tracking dictionaries.  Numeric interpolation in
messages is elided. -/
def check_health (self : HealthChecker) (pid : Int)
    (obs : Option ProcessObservation)
    (runtime_seconds last_activity_seconds : ℚ) : HealthReport :=
  match obs with
  | none =>
    { pid := pid, status := .NOT_FOUND, cpu_percent := 0, memory_mb := 0,
      runtime_seconds := 0, last_activity_seconds := 0,
      message := "Process not found" }
  | some p =>
    if ¬ p.is_running then
      { pid := pid, status := .TERMINATED, cpu_percent := 0,
        memory_mb := p.memory_mb, runtime_seconds := runtime_seconds,
        last_activity_seconds := last_activity_seconds,
        message := "Process has terminated" }
    else if p.memory_mb > self.memory_limit_mb then
      { pid := pid, status := .HIGH_MEMORY, cpu_percent := p.cpu_percent,
        memory_mb := p.memory_mb, runtime_seconds := runtime_seconds,
        last_activity_seconds := last_activity_seconds,
        message := "Memory usage exceeds limit" }
    else if last_activity_seconds > self.activity_timeout then
      if self.use_cpu_detection ∧ p.cpu_percent ≥ self.cpu_threshold then
        { pid := pid, status := .HEALTHY, cpu_percent := p.cpu_percent,
          memory_mb := p.memory_mb, runtime_seconds := runtime_seconds,
          last_activity_seconds := last_activity_seconds,
          message := "Active (CPU, thinking/computing)" }
      else
        { pid := pid, status := .HUNG, cpu_percent := p.cpu_percent,
          memory_mb := p.memory_mb, runtime_seconds := runtime_seconds,
          last_activity_seconds := last_activity_seconds,
          message := "No activity" }
    else
      { pid := pid, status := .HEALTHY, cpu_percent := p.cpu_percent,
        memory_mb := p.memory_mb, runtime_seconds := runtime_seconds,
        last_activity_seconds := last_activity_seconds,
        message := "Process is healthy" }

/-- BackoffStrategy enum from retry_handler.py. -/
inductive BackoffStrategy
  | CONSTANT
  | LINEAR
  | EXPONENTIAL
deriving DecidableEq, Repr

/-- RetryConfig dataclass from retry_handler.py.  `retryable_exceptions`
models the isinstance test against the configured exception-class tuple as a
predicate on the (abstracted) raised exception; the on_retry callback (whose
failures the source swallows) is elided. -/
structure RetryConfig where
  max_attempts : Int := 3
  base_delay_seconds : ℚ := 1
  max_delay_seconds : ℚ := 60
  backoff_strategy : BackoffStrategy := .EXPONENTIAL
  backoff_multiplier : ℚ := 2
  retryable_exceptions : String → Bool

/-- RetryHandler._calculate_delay: strategy-dependent delay, capped at the
configured maximum. -/
def _calculate_delay (config : RetryConfig) (attempt : Nat) : ℚ :=
  let delay : ℚ :=
    if config.backoff_strategy = BackoffStrategy.CONSTANT then
      config.base_delay_seconds
    else if config.backoff_strategy = BackoffStrategy.LINEAR then
      config.base_delay_seconds * attempt
    else if config.backoff_strategy = BackoffStrategy.EXPONENTIAL then
      config.base_delay_seconds * config.backoff_multiplier ^ (attempt - 1)
    else
      config.base_delay_seconds
  min delay config.max_delay_seconds

/-- Result of RetryHandler.retry: the operation's value, a propagated
exception, or the implicit `None` return reached when the attempt loop never
sets a last exception. -/
inductive RetryOutcome (α : Type)
  | ok (value : α)
  | raised (e : String)
  | returned_none
deriving DecidableEq, Repr

/-- The attempt loop of RetryHandler.retry.  `attempt` is the 1-indexed
number of the next invocation and `remaining` the number of loop iterations
the guard `attempt < max_attempts` still allows.  The operation `f` maps each
attempt number to its outcome; an exception not satisfying `retryable`
escapes the `except` clause and propagates at once; on the final allowed
attempt a retryable failure breaks out of the loop and the last exception is
re-raised. -/
def retry_go {α : Type} (retryable : String → Bool)
    (f : Nat → Except String α) : Nat → Nat → RetryOutcome α
  | _, 0 => .returned_none
  | attempt, remaining + 1 =>
    match f attempt with
    | Except.ok v => .ok v
    | Except.error e =>
      if retryable e then
        if remaining = 0 then .raised e
        else retry_go retryable f (attempt + 1) remaining
      else .raised e

/-- RetryHandler.retry: run the attempt loop starting at attempt 1 with
`max_attempts` iterations allowed (none when max_attempts is not positive,
in which case the loop body never runs and None is returned). -/
def retry {α : Type} (config : RetryConfig) (f : Nat → Except String α) :
    RetryOutcome α :=
  retry_go config.retryable_exceptions f 1 config.max_attempts.toNat

/-- The attempt loop again, instrumented with the ordered list of attempt
numbers at which the operation is actually invoked. -/
def retry_go_trace {α : Type} (retryable : String → Bool)
    (f : Nat → Except String α) : Nat → Nat → RetryOutcome α × List Nat
  | _, 0 => (.returned_none, [])
  | attempt, remaining + 1 =>
    match f attempt with
    | Except.ok v => (.ok v, [attempt])
    | Except.error e =>
      if retryable e then
        if remaining = 0 then (.raised e, [attempt])
        else
          let rest := retry_go_trace retryable f (attempt + 1) remaining
          (rest.1, attempt :: rest.2)
      else (.raised e, [attempt])

/-- Instrumented RetryHandler.retry: outcome plus invocation trace. -/
def retry_trace {α : Type} (config : RetryConfig)
    (f : Nat → Except String α) : RetryOutcome α × List Nat :=
  retry_go_trace config.retryable_exceptions f 1 config.max_attempts.toNat

/-- Reference delay formula from the specification: constant, linear in the
attempt number, or exponential with exponent one less than the attempt
number. -/
def reference_delay (config : RetryConfig) (n : Nat) : ℚ :=
  match config.backoff_strategy with
  | .CONSTANT => config.base_delay_seconds
  | .LINEAR => config.base_delay_seconds * n
  | .EXPONENTIAL => config.base_delay_seconds * config.backoff_multiplier ^ (n - 1)

/-- Critical-error history reached by a blocking spawn, whether it returned a
TaskResult or raised the pipeline-abort error. -/
def spawn_history
    (r : Except (SpawnerState × String) (SpawnerState × TaskResult)) :
    List CriticalError :=
  match r with
  | Except.ok (st, _) => st.critical_errors
  | Except.error (st, _) => st.critical_errors

/-- Spawner state with all defaults: empty history, STOP_PIPELINE default
escalation, no callback. -/
def c1_state : SpawnerState := {}

/-- Spawner state whose default escalation is CONTINUE, no callback. -/
def cont_state : SpawnerState := { default_escalation := .CONTINUE }

/-- Sample background task with a 1-second timeout. -/
def c1_task : BackgroundTask :=
  { task_id := "develop_1", stage_name := "develop", timeout := 1 }

/-- Sample child-process behaviour: runs for 5 seconds, would exit cleanly. -/
def c1_run : ProcessRun :=
  { runtime_seconds := 5, exit_code := 0, stdout_content := "", stderr_content := "" }

/-- Fresh spawner state for the exception-path analysis. -/
def c3_state : SpawnerState := {}

/-- Fresh background task for the exception-path analysis. -/
def c3_task : BackgroundTask :=
  { task_id := "review_1", stage_name := "review", timeout := 600 }

/-- Sample escalation callback that itself raises. -/
def sample_cb : CriticalError → Except String EscalationAction :=
  fun _ => Except.error "handler crashed"

/-- Sample critical error fed to the handler. -/
def sample_error : CriticalError :=
  { message := "boom", severity := .CRITICAL, task_id := "t1", stage_name := "stage" }

/-- Spawner state configured with the raising callback and ASK_HUMAN default. -/
def cb_state : SpawnerState :=
  { critical_errors := [], default_escalation := .ASK_HUMAN,
    on_critical_error := some sample_cb }

/-- Health checker used for concrete evaluation: 10s inactivity timeout,
CPU detection on, 100MB limit, 1% CPU threshold. -/
def sample_checker : HealthChecker :=
  { activity_timeout := 10, use_cpu_detection := true,
    memory_limit_mb := 100, cpu_threshold := 1 }

/-- Observed process for concrete evaluation: running, idle CPU, 50MB. -/
def sample_obs : ProcessObservation :=
  { is_running := true, cpu_percent := 0, memory_mb := 50 }

/-- Retry configuration with all dataclass defaults and every exception
retryable. -/
def sample_retry_config : RetryConfig :=
  { retryable_exceptions := fun _ => true }

/-- Retry configuration with a non-positive attempt budget. -/
def zero_attempt_config : RetryConfig :=
  { max_attempts := 0, retryable_exceptions := fun _ => true }

/-- Retry configuration allowing two attempts, retrying only the exception
"transient". -/
def c7_config : RetryConfig :=
  { max_attempts := 2, retryable_exceptions := fun s => s == "transient" }

/-- Operation that raises a retryable exception on attempt 1 and a
non-retryable one on every later attempt. -/
def c7_f : Nat → Except String Nat :=
  fun n => if n = 1 then Except.error "transient" else Except.error "fatal"

/-- Operation that raises a retryable exception on every attempt. -/
def c7_g : Nat → Except String Nat :=
  fun _ => Except.error "transient"

/-- Background task already in the CRITICAL_ERROR terminal status. -/
def ce_task : BackgroundTask :=
  { task_id := "t9", stage_name := "s9", status := .CRITICAL_ERROR }

/-- Claim C2: the error classifier agrees with the reference definition for
every exit code, stderr text and task status; in particular, with exit code 1
a critical pattern in stderr yields CRITICAL and a transient pattern (with no
critical pattern present) yields RECOVERABLE — pattern matching takes
precedence over the exit-code fallback. -/
theorem claim_C2 :
    (∀ (exit_code : Int) (error_output : String) (status : TaskStatus),
        _classify_error_severity exit_code error_output status =
          classify_reference exit_code error_output status) ∧
    (∀ error_output : String,
        containsAnyOf error_output critical_patterns = true →
        _classify_error_severity 1 error_output TaskStatus.FAILED =
          ErrorSeverity.CRITICAL) ∧
    (∀ error_output : String,
        containsAnyOf error_output recoverable_patterns = true →
        containsAnyOf error_output critical_patterns = false →
        _classify_error_severity 1 error_output TaskStatus.FAILED =
          ErrorSeverity.RECOVERABLE) := by
  refine ⟨fun c s st => rfl, fun s h => ?_, fun s h1 h2 => ?_⟩
  · simp [_classify_error_severity, h]
  · simp [_classify_error_severity, h1, h2]

/-- Claim C2 witness: concrete stderr texts exercising both precedence
facts. -/
theorem claim_C2_witness :
    containsAnyOf "Error: API rate limit exceeded" critical_patterns = true ∧
    _classify_error_severity 1 "Error: API rate limit exceeded" TaskStatus.FAILED =
      ErrorSeverity.CRITICAL ∧
    containsAnyOf "please Try again later" recoverable_patterns = true ∧
    containsAnyOf "please Try again later" critical_patterns = false ∧
    _classify_error_severity 1 "please Try again later" TaskStatus.FAILED =
      ErrorSeverity.RECOVERABLE :=
  ⟨by decide, claim_C2.2.1 _ (by decide), by decide, by decide,
    claim_C2.2.2 _ (by decide) (by decide)⟩

/-- Claim C5: the escalation executor returns true exactly for the string
values of CONTINUE and RETRY, and false for STOP_PIPELINE, ASK_HUMAN and any
unrecognized action value, for every task result and task id. -/
theorem claim_C5 :
    (∀ (action : String) (r : TaskResult) (tid : String),
        _execute_escalation_action action r tid = true ↔
          (action = EscalationAction.CONTINUE.value ∨
            action = EscalationAction.RETRY.value)) ∧
    (∀ (a : EscalationAction) (r : TaskResult) (tid : String),
        _execute_escalation_action a.value r tid =
          (a = EscalationAction.CONTINUE || a = EscalationAction.RETRY)) := by
  constructor
  · intro action r tid
    unfold _execute_escalation_action EscalationAction.value
    split_ifs with h1 h2 h3 h4 <;> simp_all
  · intro a r tid
    cases a <;> rfl

/-- Claim C6: handling a critical error appends it to the history before the
escalation decision is made (the history queried afterwards contains it
regardless of the decision), and a raising callback makes the handler return
the configured default escalation instead of propagating. -/
theorem claim_C6 :
    ∀ (st : SpawnerState) (e : CriticalError),
      get_critical_errors (_handle_critical_error st e).1 =
        get_critical_errors st ++ [e] ∧
      e ∈ get_critical_errors (_handle_critical_error st e).1 ∧
      (∀ (cb : CriticalError → Except String EscalationAction) (msg : String),
        st.on_critical_error = some cb → cb e = Except.error msg →
        (_handle_critical_error st e).2 = st.default_escalation) := by
  intro st e
  refine ⟨?_, ?_, ?_⟩
  · unfold _handle_critical_error get_critical_errors
    cases hcb : st.on_critical_error with
    | none => simp
    | some cb => cases hce : cb e <;> simp [hce]
  · unfold _handle_critical_error get_critical_errors
    cases hcb : st.on_critical_error with
    | none => simp
    | some cb => cases hce : cb e <;> simp [hce]
  · intro cb msg hcb hce
    unfold _handle_critical_error
    simp [hcb, hce]

/-- Claim C6 witness: a state with a raising callback; the handled error is
recorded and the ASK_HUMAN default is returned. -/
theorem claim_C6_witness :
    get_critical_errors (_handle_critical_error cb_state sample_error).1 =
      [sample_error] ∧
    (_handle_critical_error cb_state sample_error).2 =
      EscalationAction.ASK_HUMAN :=
  ⟨by simpa using (claim_C6 cb_state sample_error).1,
    (claim_C6 cb_state sample_error).2.2 sample_cb "handler crashed" rfl rfl⟩

/-- Claim C8: for every attempt number at least 1, the computed delay is the
configured maximum capped against the strategy formula (constant base,
linear base times attempt, exponential base times multiplier to the power
attempt minus one). -/
theorem claim_C8 :
    ∀ (config : RetryConfig) (n : Nat), 1 ≤ n →
      _calculate_delay config n =
        min config.max_delay_seconds (reference_delay config n) := by
  intro config n _
  rcases config with ⟨ma, base, mx, strat, mult, rex⟩
  cases strat <;> simp [_calculate_delay, reference_delay, min_comm]

/-- Claim C8 witness: third attempt under the default exponential config. -/
theorem claim_C8_witness :
    1 ≤ 3 ∧
    _calculate_delay sample_retry_config 3 =
      min sample_retry_config.max_delay_seconds
        (reference_delay sample_retry_config 3) :=
  ⟨by norm_num, claim_C8 sample_retry_config 3 (by norm_num)⟩

/-- Claim C9: with a non-positive max_attempts the retry loop body never
runs: no invocation happens, nothing is raised, and None is returned. -/
theorem claim_C9 :
    ∀ (config : RetryConfig) {α : Type} (f : Nat → Except String α),
      config.max_attempts ≤ 0 →
      retry config f = RetryOutcome.returned_none ∧
      retry_trace config f = (RetryOutcome.returned_none, []) := by
  intro config α f h
  have hz : config.max_attempts.toNat = 0 := Int.toNat_eq_zero.mpr h
  constructor
  · unfold retry
    rw [hz]
    rfl
  · unfold retry_trace
    rw [hz]
    rfl

/-- Claim C9 witness: a zero-attempt config with an always-succeeding
operation still returns None without invoking it. -/
theorem claim_C9_witness :
    zero_attempt_config.max_attempts ≤ 0 ∧
    retry zero_attempt_config (fun _ => Except.ok (0 : Nat)) =
      RetryOutcome.returned_none ∧
    retry_trace zero_attempt_config (fun _ => Except.ok (0 : Nat)) =
      (RetryOutcome.returned_none, []) :=
  ⟨by norm_num [zero_attempt_config],
    (claim_C9 zero_attempt_config _ (by norm_num [zero_attempt_config])).1,
    (claim_C9 zero_attempt_config _ (by norm_num [zero_attempt_config])).2⟩

/-- Claim C10: is_done holds exactly for COMPLETED, FAILED and TIMEOUT, so a
task in the terminal CRITICAL_ERROR status is reported not done and a
blocking get_result on it never returns a value. -/
theorem claim_C10 :
    (∀ t : BackgroundTask,
        t.is_done = true ↔
          (t.status = TaskStatus.COMPLETED ∨ t.status = TaskStatus.FAILED ∨
            t.status = TaskStatus.TIMEOUT)) ∧
    (∀ (t : BackgroundTask) (elapsed : ℚ),
        t.status = TaskStatus.CRITICAL_ERROR →
        t.is_done = false ∧ t.get_result true elapsed = none) := by
  constructor
  · intro t
    simp [BackgroundTask.is_done, or_assoc]
  · intro t elapsed h
    have hd : t.is_done = false := by
      simp [BackgroundTask.is_done, h]
    refine ⟨hd, ?_⟩
    simp [BackgroundTask.get_result, hd]

/-- Claim C10 witness: a concrete CRITICAL_ERROR task is not done and its
blocking get_result never returns. -/
theorem claim_C10_witness :
    ce_task.status = TaskStatus.CRITICAL_ERROR ∧
    ce_task.is_done = false ∧
    ce_task.get_result true 0 = none :=
  ⟨rfl, (claim_C10.2 ce_task 0 rfl).1, (claim_C10.2 ce_task 0 rfl).2⟩

/-- Claim C4: for an existing, running process within the memory limit whose
inactivity exceeds the timeout, check_health reports HUNG when CPU detection
is disabled or the CPU sample is below the threshold, HEALTHY when detection
is enabled and the sample is at or above the threshold; two calls identical
except for the CPU sample on opposite sides of the threshold yield HUNG
versus HEALTHY. -/
theorem claim_C4 :
    ∀ (hc : HealthChecker) (pid : Int) (p : ProcessObservation) (rt las : ℚ),
      p.is_running = true →
      p.memory_mb ≤ hc.memory_limit_mb →
      las > hc.activity_timeout →
      ((hc.use_cpu_detection = false ∨ p.cpu_percent < hc.cpu_threshold) →
        (check_health hc pid (some p) rt las).status = HealthStatus.HUNG) ∧
      (hc.use_cpu_detection = true → hc.cpu_threshold ≤ p.cpu_percent →
        (check_health hc pid (some p) rt las).status = HealthStatus.HEALTHY) ∧
      (∀ clo chi : ℚ, hc.use_cpu_detection = true →
        clo < hc.cpu_threshold → hc.cpu_threshold ≤ chi →
        (check_health hc pid (some { p with cpu_percent := clo }) rt las).status =
          HealthStatus.HUNG ∧
        (check_health hc pid (some { p with cpu_percent := chi }) rt las).status =
          HealthStatus.HEALTHY) := by
  intro hc pid p rt las h1 h2 h3
  have hmem : ¬ (p.memory_mb > hc.memory_limit_mb) := not_lt.mpr h2
  refine ⟨?_, ?_, ?_⟩
  · intro hcpu
    have hno : ¬ ((hc.use_cpu_detection : Prop) ∧ p.cpu_percent ≥ hc.cpu_threshold) := by
      rcases hcpu with h | h
      · rintro ⟨hd, _⟩
        rw [h] at hd
        exact Bool.false_ne_true hd
      · rintro ⟨_, hge⟩
        exact absurd h (not_lt.mpr hge)
    simp [check_health, h1, hmem, h3, hno]
  · intro hd hge
    have hyes : (hc.use_cpu_detection : Prop) ∧ p.cpu_percent ≥ hc.cpu_threshold :=
      ⟨by rw [hd], hge⟩
    simp [check_health, h1, hmem, h3, hyes]
  · intro clo chi hd hlo hhi
    constructor
    · have hno : ¬ ((hc.use_cpu_detection : Prop) ∧
          ({ p with cpu_percent := clo } : ProcessObservation).cpu_percent ≥ hc.cpu_threshold) := by
        rintro ⟨_, hge⟩
        exact absurd hlo (not_lt.mpr hge)
      simp [check_health, h1, hmem, h3, hno]
    · have hyes : (hc.use_cpu_detection : Prop) ∧
          ({ p with cpu_percent := chi } : ProcessObservation).cpu_percent ≥ hc.cpu_threshold :=
        ⟨by rw [hd], hhi⟩
      simp [check_health, h1, hmem, h3, hyes]

/-- Claim C4 witness: under a 10-second inactivity timeout with CPU detection
enabled and threshold 1, an idle (0 percent) process that has been silent for
20 seconds is HUNG, while the same process at 5 percent CPU is HEALTHY. -/
theorem claim_C4_witness :
    (check_health sample_checker 42 (some { sample_obs with cpu_percent := 0 })
        30 20).status = HealthStatus.HUNG ∧
    (check_health sample_checker 42 (some { sample_obs with cpu_percent := 5 })
        30 20).status = HealthStatus.HEALTHY :=
  (claim_C4 sample_checker 42 sample_obs 30 20 rfl (by norm_num [sample_obs, sample_checker])
      (by norm_num [sample_checker])).2.2 0 5 rfl
    (by norm_num [sample_checker]) (by norm_num [sample_checker])

theorem retry_go_succ {α : Type} (retryable : String → Bool)
    (f : Nat → Except String α) (attempt remaining : Nat) :
    retry_go retryable f attempt (remaining + 1) =
      match f attempt with
      | Except.ok v => RetryOutcome.ok v
      | Except.error e =>
        if retryable e then
          if remaining = 0 then RetryOutcome.raised e
          else retry_go retryable f (attempt + 1) remaining
        else RetryOutcome.raised e := rfl

theorem retry_go_trace_succ {α : Type} (retryable : String → Bool)
    (f : Nat → Except String α) (attempt remaining : Nat) :
    retry_go_trace retryable f attempt (remaining + 1) =
      match f attempt with
      | Except.ok v => (RetryOutcome.ok v, [attempt])
      | Except.error e =>
        if retryable e then
          if remaining = 0 then (RetryOutcome.raised e, [attempt])
          else
            ((retry_go_trace retryable f (attempt + 1) remaining).1,
              attempt :: (retry_go_trace retryable f (attempt + 1) remaining).2)
        else (RetryOutcome.raised e, [attempt]) := rfl

theorem retry_go_trace_fst {α : Type} (retryable : String → Bool)
    (f : Nat → Except String α) :
    ∀ (remaining attempt : Nat),
      (retry_go_trace retryable f attempt remaining).1 =
        retry_go retryable f attempt remaining := by
  intro remaining
  induction remaining with
  | zero => intro attempt; rfl
  | succ r ih =>
    intro attempt
    rw [retry_go_trace_succ, retry_go_succ]
    cases hf : f attempt with
    | ok v => rfl
    | error e =>
      by_cases hr : retryable e
      · by_cases hz : r = 0
        · simp [hr, hz]
        · simp [hr, hz, ih (attempt + 1)]
      · simp [hr]

theorem retry_go_nonretryable {α : Type} (retryable : String → Bool)
    (f : Nat → Except String α) :
    ∀ (d attempt remaining : Nat) (e : String), d < remaining →
      (∀ j, attempt ≤ j → j < attempt + d →
        ∃ ej, f j = Except.error ej ∧ retryable ej = true) →
      f (attempt + d) = Except.error e → retryable e = false →
      retry_go_trace retryable f attempt remaining =
        (RetryOutcome.raised e, List.range' attempt (d + 1)) := by
  intro d
  induction d with
  | zero =>
    intro attempt remaining e hd _ hf hr
    obtain ⟨r, rfl⟩ : ∃ r, remaining = r + 1 := ⟨remaining - 1, by omega⟩
    rw [Nat.add_zero] at hf
    rw [retry_go_trace_succ]
    simp [hf, hr, List.range']
  | succ d ih =>
    intro attempt remaining e hd hprev hf hr
    obtain ⟨r, rfl⟩ : ∃ r, remaining = r + 1 := ⟨remaining - 1, by omega⟩
    obtain ⟨ea, hfa, hra⟩ := hprev attempt le_rfl (by omega)
    have hrz : ¬ (r = 0) := by omega
    have hrec := ih (attempt + 1) r e (by omega)
      (fun j hj1 hj2 => hprev j (by omega) (by omega))
      (by rw [show attempt + 1 + d = attempt + (d + 1) by omega]; exact hf) hr
    rw [retry_go_trace_succ]
    simp [hfa, hra, hrz, hrec, List.range']

theorem retry_go_exhaust {α : Type} (retryable : String → Bool)
    (f : Nat → Except String α) :
    ∀ (r attempt : Nat),
      (∀ j, attempt ≤ j → j ≤ attempt + r →
        ∃ ej, f j = Except.error ej ∧ retryable ej = true) →
      ∃ e, f (attempt + r) = Except.error e ∧
        retry_go_trace retryable f attempt (r + 1) =
          (RetryOutcome.raised e, List.range' attempt (r + 1)) := by
  intro r
  induction r with
  | zero =>
    intro attempt hall
    obtain ⟨ea, hfa, hra⟩ := hall attempt le_rfl (by omega)
    refine ⟨ea, by simpa using hfa, ?_⟩
    rw [retry_go_trace_succ]
    simp [hfa, hra, List.range']
  | succ r2 ih =>
    intro attempt hall
    obtain ⟨ea, hfa, hra⟩ := hall attempt le_rfl (by omega)
    obtain ⟨e, hfe, heq⟩ := ih (attempt + 1)
      (fun j hj1 hj2 => hall j (by omega) (by omega))
    refine ⟨e, ?_, ?_⟩
    · rw [show attempt + (r2 + 1) = attempt + 1 + r2 by omega]
      exact hfe
    · rw [retry_go_trace_succ]
      simp [hfa, hra, heq, List.range']

/-- Claim C7: with at least one allowed attempt, a non-retryable exception at
attempt k (after retryable failures at attempts 1..k-1) propagates
immediately — the outcome is that exception and the invocation trace stops at
k; and when every attempt raises a retryable exception, exactly max_attempts
invocations happen and the exception of the last attempt is re-raised. -/
theorem claim_C7 :
    ∀ (config : RetryConfig) {α : Type} (f : Nat → Except String α) (N : Nat),
      config.max_attempts.toNat = N → 1 ≤ N →
      ((∀ (k : Nat) (e : String), 1 ≤ k → k ≤ N →
        (∀ j, 1 ≤ j → j < k →
          ∃ ej, f j = Except.error ej ∧ config.retryable_exceptions ej = true) →
        f k = Except.error e → config.retryable_exceptions e = false →
        retry config f = RetryOutcome.raised e ∧
          retry_trace config f = (RetryOutcome.raised e, List.range' 1 k)) ∧
      ((∀ j, 1 ≤ j → j ≤ N →
          ∃ ej, f j = Except.error ej ∧ config.retryable_exceptions ej = true) →
        ∃ e, f N = Except.error e ∧
          retry config f = RetryOutcome.raised e ∧
          retry_trace config f = (RetryOutcome.raised e, List.range' 1 N))) := by
  intro config α f N hN h1
  constructor
  · intro k e hk1 hk2 hprev hf hr
    have htr : retry_trace config f = (RetryOutcome.raised e, List.range' 1 k) := by
      unfold retry_trace
      rw [hN]
      have := retry_go_nonretryable config.retryable_exceptions f (k - 1) 1 N e
        (by omega) (fun j hj1 hj2 => hprev j hj1 (by omega))
        (by rw [show 1 + (k - 1) = k by omega]; exact hf) hr
      rw [this, show k - 1 + 1 = k by omega]
    refine ⟨?_, htr⟩
    have hfst := retry_go_trace_fst config.retryable_exceptions f
      config.max_attempts.toNat 1
    unfold retry
    rw [← hfst]
    unfold retry_trace at htr
    rw [htr]
  · intro hall
    obtain ⟨e, hfe, heq⟩ := retry_go_exhaust config.retryable_exceptions f (N - 1) 1
      (fun j hj1 hj2 => hall j hj1 (by omega))
    rw [show 1 + (N - 1) = N by omega] at hfe
    have htr : retry_trace config f = (RetryOutcome.raised e, List.range' 1 N) := by
      unfold retry_trace
      rw [hN, show N = N - 1 + 1 by omega]
      exact heq
    refine ⟨e, hfe, ?_, htr⟩
    have hfst := retry_go_trace_fst config.retryable_exceptions f
      config.max_attempts.toNat 1
    unfold retry
    rw [← hfst]
    unfold retry_trace at htr
    rw [htr]

/-- Claim C7 witness: with two attempts and only "transient" retryable, the
operation failing transiently then fatally propagates "fatal" after attempts
1 and 2; the operation failing transiently on every attempt exhausts both
attempts and re-raises "transient". -/
theorem claim_C7_witness :
    (retry c7_config c7_f = RetryOutcome.raised "fatal" ∧
      retry_trace c7_config c7_f = (RetryOutcome.raised "fatal", [1, 2])) ∧
    (retry c7_config c7_g = RetryOutcome.raised "transient" ∧
      retry_trace c7_config c7_g = (RetryOutcome.raised "transient", [1, 2])) := by
  constructor
  · have h := (claim_C7 c7_config c7_f 2 rfl (by norm_num)).1 2 "fatal"
      (by norm_num) le_rfl
      (by
        intro j hj1 hj2
        have : j = 1 := by omega
        subst this
        exact ⟨"transient", rfl, rfl⟩)
      rfl rfl
    simpa using h
  · have h := (claim_C7 c7_config c7_g 2 rfl (by norm_num)).2
      (fun j hj1 hj2 => ⟨"transient", rfl, rfl⟩)
    obtain ⟨e, hfe, h1, h2⟩ := h
    have he : e = "transient" := by
      have := hfe.symm.trans (rfl : c7_g 2 = Except.error "transient")
      exact (Except.error.injEq _ _ ▸ congrArg id this) ▸ rfl
    subst he
    exact ⟨h1, by simpa using h2⟩

/-- Claim C1 counterexample: a child running 5s against a 1s timeout.  In the
background _execute_task path the task ends TIMEOUT but the critical-error
history stays empty — no FATAL CriticalError is appended; and in the blocking
path with the default STOP_PIPELINE escalation the history gains two errors,
not exactly one, because the pipeline-stop error raised inside the `try`
block is caught by the spawn exception handler which appends a second,
CRITICAL, error. -/
theorem claim_C1_counterexample :
    (_execute_task c1_state c1_task (RunOutcome.completes c1_run)).2.status =
      TaskStatus.TIMEOUT ∧
    (_execute_task c1_state c1_task (RunOutcome.completes c1_run)).1.critical_errors =
      [] ∧
    (spawn_history
        (spawn_blocking c1_state (RunOutcome.completes c1_run) 1 "tid" "develop")).length =
      2 := by
  refine ⟨rfl, rfl, rfl⟩

/-- Claim C1 (amended): when the child outlives the timeout, (a) the blocking
path with a CONTINUE escalation decision returns a TaskResult with status
TIMEOUT and success=false and appends exactly one FATAL CriticalError; (b)
the blocking path with a STOP_PIPELINE decision raises the pipeline-abort
error after appending two CriticalErrors — the FATAL timeout error and the
CRITICAL one added by the exception handler that catches the abort raised
inside the `try` block; (c) the background _execute_task path marks the task
and its TaskResult TIMEOUT with success=false but appends no CriticalError
at all. -/
theorem claim_C1 :
    (∀ (st : SpawnerState) (run : ProcessRun) (t : ℚ) (tid lbl : String),
        st.on_critical_error = none →
        st.default_escalation = EscalationAction.CONTINUE →
        run.runtime_seconds > t →
        ∃ st' r, spawn_blocking st (RunOutcome.completes run) t tid lbl =
            Except.ok (st', r) ∧
          r.status = TaskStatus.TIMEOUT ∧ r.success = false ∧
          ∃ ce, st'.critical_errors = st.critical_errors ++ [ce] ∧
            ce.severity = ErrorSeverity.FATAL) ∧
    (∀ (st : SpawnerState) (run : ProcessRun) (t : ℚ) (tid lbl : String),
        st.on_critical_error = none →
        st.default_escalation = EscalationAction.STOP_PIPELINE →
        run.runtime_seconds > t →
        ∃ st' msg, spawn_blocking st (RunOutcome.completes run) t tid lbl =
            Except.error (st', msg) ∧
          ∃ ce1 ce2, st'.critical_errors = st.critical_errors ++ [ce1, ce2] ∧
            ce1.severity = ErrorSeverity.FATAL ∧
            ce2.severity = ErrorSeverity.CRITICAL) ∧
    (∀ (st : SpawnerState) (task : BackgroundTask) (run : ProcessRun),
        run.runtime_seconds > task.timeout →
        (_execute_task st task (RunOutcome.completes run)).1 = st ∧
        (_execute_task st task (RunOutcome.completes run)).2.status =
          TaskStatus.TIMEOUT ∧
        ∃ r, (_execute_task st task (RunOutcome.completes run)).2._result =
            some r ∧
          r.success = false ∧ r.status = TaskStatus.TIMEOUT) := by
  refine ⟨?_, ?_, ?_⟩
  · intro st run t tid lbl hcb hdef hrun
    simp only [spawn_blocking, spawn_blocking_try, _handle_critical_error, hcb,
      hdef, _execute_escalation_action, EscalationAction.value, hrun, if_true,
      reduceIte]
    exact ⟨_, _, rfl, rfl, rfl, ⟨_, rfl, rfl⟩⟩
  · intro st run t tid lbl hcb hdef hrun
    simp only [spawn_blocking, spawn_blocking_try, spawn_blocking_handler,
      _handle_critical_error, hcb, hdef, _execute_escalation_action,
      EscalationAction.value, hrun, if_true, reduceIte]
    refine ⟨_, _, rfl,
      { message := "Task timed out", severity := ErrorSeverity.FATAL,
        task_id := tid, stage_name := lbl,
        error_details := some run.stderr_content,
        suggested_action := some "Increase timeout or optimize task complexity",
        timestamp := 0 },
      { message := "Exception during task execution",
        severity := ErrorSeverity.CRITICAL, task_id := tid, stage_name := lbl,
        error_details := some ("Pipeline stopped due to timeout in " ++ lbl),
        suggested_action := some "Review logs and fix the underlying issue",
        timestamp := 0 },
      ?_, rfl, rfl⟩
    simp
  · intro st task run hrun
    simp only [_execute_task, hrun, if_true, reduceIte]
    simp

/-- Claim C1 witness: the amended statement evaluated on the concrete 5s run
against a 1s timeout, under a CONTINUE spawner, a STOP_PIPELINE spawner and a
background task. -/
theorem claim_C1_witness :
    (∃ st' r, spawn_blocking cont_state (RunOutcome.completes c1_run) 1 "tid" "lbl" =
        Except.ok (st', r) ∧
      r.status = TaskStatus.TIMEOUT ∧ r.success = false ∧
      ∃ ce, st'.critical_errors = cont_state.critical_errors ++ [ce] ∧
        ce.severity = ErrorSeverity.FATAL) ∧
    (∃ st' msg, spawn_blocking c1_state (RunOutcome.completes c1_run) 1 "tid" "lbl" =
        Except.error (st', msg) ∧
      ∃ ce1 ce2, st'.critical_errors = c1_state.critical_errors ++ [ce1, ce2] ∧
        ce1.severity = ErrorSeverity.FATAL ∧
        ce2.severity = ErrorSeverity.CRITICAL) ∧
    ((_execute_task c1_state c1_task (RunOutcome.completes c1_run)).1 = c1_state ∧
      (_execute_task c1_state c1_task (RunOutcome.completes c1_run)).2.status =
        TaskStatus.TIMEOUT ∧
      ∃ r, (_execute_task c1_state c1_task (RunOutcome.completes c1_run)).2._result =
          some r ∧
        r.success = false ∧ r.status = TaskStatus.TIMEOUT) :=
  ⟨claim_C1.1 cont_state c1_run 1 "tid" "lbl" rfl rfl (by norm_num [c1_run]),
    claim_C1.2.1 c1_state c1_run 1 "tid" "lbl" rfl rfl (by norm_num [c1_run]),
    claim_C1.2.2 c1_state c1_task c1_run (by norm_num [c1_run, c1_task])⟩

/-- Claim C3 counterexample: an exception raised while spawning a background
task.  The background _execute_task exception path appends no CriticalError,
runs no escalation (the spawner state is returned untouched), and just marks
the task FAILED with a plain failure result. -/
theorem claim_C3_counterexample :
    (_execute_task c3_state c3_task (RunOutcome.raises "spawn failed")).1.critical_errors =
      [] ∧
    (_execute_task c3_state c3_task (RunOutcome.raises "spawn failed")).2.status =
      TaskStatus.FAILED ∧
    (_execute_task c3_state c3_task (RunOutcome.raises "spawn failed")).2._result =
      some { success := false, output := "", error := some "spawn failed",
             exit_code := -1, duration_seconds := 0,
             status := TaskStatus.FAILED } := by
  refine ⟨rfl, rfl, rfl⟩

/-- Claim C3 (amended): an exception during blocking spawn or monitoring
produces one CRITICAL CriticalError independent of the classifier, appends it
to the history, and runs the escalation policy before returning a
success=false TaskResult (CONTINUE decision) or raising the pipeline-abort
error (STOP_PIPELINE decision); the background _execute_task path, by
contrast, appends no CriticalError and runs no escalation — it only marks the
task FAILED with a success=false result. -/
theorem claim_C3 :
    (∀ (st : SpawnerState) (e : String) (t : ℚ) (tid lbl : String),
        st.on_critical_error = none →
        st.default_escalation = EscalationAction.CONTINUE →
        ∃ st' r, spawn_blocking st (RunOutcome.raises e) t tid lbl =
            Except.ok (st', r) ∧
          r.success = false ∧ r.status = TaskStatus.CRITICAL_ERROR ∧
          ∃ ce, st'.critical_errors = st.critical_errors ++ [ce] ∧
            ce.severity = ErrorSeverity.CRITICAL) ∧
    (∀ (st : SpawnerState) (e : String) (t : ℚ) (tid lbl : String),
        st.on_critical_error = none →
        st.default_escalation = EscalationAction.STOP_PIPELINE →
        ∃ st' msg, spawn_blocking st (RunOutcome.raises e) t tid lbl =
            Except.error (st', msg) ∧
          ∃ ce, st'.critical_errors = st.critical_errors ++ [ce] ∧
            ce.severity = ErrorSeverity.CRITICAL) ∧
    (∀ (st : SpawnerState) (task : BackgroundTask) (e : String),
        (_execute_task st task (RunOutcome.raises e)).1 = st ∧
        (_execute_task st task (RunOutcome.raises e)).2.status =
          TaskStatus.FAILED ∧
        ∃ r, (_execute_task st task (RunOutcome.raises e)).2._result = some r ∧
          r.success = false ∧ r.status = TaskStatus.FAILED) := by
  refine ⟨?_, ?_, ?_⟩
  · intro st e t tid lbl hcb hdef
    simp only [spawn_blocking, spawn_blocking_try, spawn_blocking_handler,
      _handle_critical_error, hcb, hdef, _execute_escalation_action,
      EscalationAction.value, reduceIte]
    exact ⟨_, _, rfl, rfl, rfl, ⟨_, rfl, rfl⟩⟩
  · intro st e t tid lbl hcb hdef
    simp only [spawn_blocking, spawn_blocking_try, spawn_blocking_handler,
      _handle_critical_error, hcb, hdef, _execute_escalation_action,
      EscalationAction.value, reduceIte]
    exact ⟨_, _, rfl, ⟨_, rfl, rfl⟩⟩
  · intro st task e
    simp only [_execute_task]
    simp

/-- Claim C3 witness: the amended statement evaluated on a concrete spawn
exception under a CONTINUE spawner, a STOP_PIPELINE spawner and a background
task. -/
theorem claim_C3_witness :
    (∃ st' r, spawn_blocking cont_state (RunOutcome.raises "launch failed") 600 "tid" "lbl" =
        Except.ok (st', r) ∧
      r.success = false ∧ r.status = TaskStatus.CRITICAL_ERROR ∧
      ∃ ce, st'.critical_errors = cont_state.critical_errors ++ [ce] ∧
        ce.severity = ErrorSeverity.CRITICAL) ∧
    (∃ st' msg, spawn_blocking c3_state (RunOutcome.raises "launch failed") 600 "tid" "lbl" =
        Except.error (st', msg) ∧
      ∃ ce, st'.critical_errors = c3_state.critical_errors ++ [ce] ∧
        ce.severity = ErrorSeverity.CRITICAL) ∧
    ((_execute_task c3_state c3_task (RunOutcome.raises "launch failed")).1 = c3_state ∧
      (_execute_task c3_state c3_task (RunOutcome.raises "launch failed")).2.status =
        TaskStatus.FAILED ∧
      ∃ r, (_execute_task c3_state c3_task (RunOutcome.raises "launch failed")).2._result =
          some r ∧
        r.success = false ∧ r.status = TaskStatus.FAILED) :=
  ⟨claim_C3.1 cont_state "launch failed" 600 "tid" "lbl" rfl rfl,
    claim_C3.2.1 c3_state "launch failed" 600 "tid" "lbl" rfl rfl,
    claim_C3.2.2 c3_state c3_task "launch failed"⟩

end Orchestrate







